import Mathlib

/-!
Shallow embedding of `src/web.py` (AllMovies bot): the TTL cache inlined in
`tmdb_search` / `omdb_lookup`, the sliding-window rate limiter `rate_limited`,
the message handler `text_handler` (lookup fallback chain + rendering), and the
`webhook` endpoint's authentication gate.

Modelling conventions:
* Timestamps (`datetime.utcnow()` / `.timestamp()`) are modelled as `Int`.
* The single Python dict `cache` keyed by disjoint `"tmdb:"`/`"omdb:"` prefixed
  strings is modelled as two typed association lists, one per value shape; the
  key strings keep their prefixes, so the split is behaviour-preserving.
* The network call (`client.get` + `raise_for_status` + `r.json()`) is an
  oracle parameter of type `Except LookupFailure α`: `Except.error` models the
  raised `httpx` exception (HTTP status error or JSON decode error).
* JSON numbers that are only ever interpolated into f-strings (`vote_average`,
  `imdbRating`) are modelled by their rendered decimal string.
* A `HandlerOut.raised = some e` models an exception escaping `text_handler`
  uncaught; instrumentation fields (`tmdbFetched`, `omdbCalled`, ...) record
  which side effects occurred during the call.
-/

namespace AllMovies

/-- Failure of the upstream HTTP call: `raise_for_status()` raising on a
non-2xx status, or `r.json()` raising on a malformed body. -/
inductive LookupFailure where
  | httpError
  | malformed
deriving DecidableEq, Repr

/-- `class CacheItem(BaseModel): value; expiry` (src/web.py line 33). -/
structure CacheItem (α : Type) where
  value : α
  expiry : Int
deriving DecidableEq, Repr

/-- `cache: Dict[str, CacheItem]` modelled as an association list. -/
abbrev Cache (α : Type) := List (String × CacheItem α)

/-- `cache.get(key)`. -/
def cacheGet {α : Type} (c : Cache α) (key : String) : Option (CacheItem α) :=
  match c with
  | [] => none
  | (k, ci) :: rest => if k = key then some ci else cacheGet rest key

/-- `cache[key] = item`. -/
def cacheSet {α : Type} (c : Cache α) (key : String) (item : CacheItem α) : Cache α :=
  match c with
  | [] => [(key, item)]
  | (k, ci) :: rest => if k = key then (key, item) :: rest else (k, ci) :: cacheSet rest key item

/-- `cache.get(key)` yields a live (unexpired) entry: `ci and ci.expiry > now`. -/
def liveAt {α : Type} (c : Cache α) (key : String) (now : Int) : Bool :=
  match cacheGet c key with
  | some ci => now < ci.expiry
  | none => false

/-- The cache-or-fetch logic inlined identically in `tmdb_search` (lines 46-58)
and `omdb_lookup` (lines 63-75): on a live entry return `ci.value` without
fetching; otherwise perform the fetch; on success store `{value, now+ttl}` and
return the data; on a raised fetch, propagate and leave the cache untouched.
The third component records whether the upstream fetch was performed. -/
def get_or_fetch {α : Type} (c : Cache α) (key : String) (now ttl : Int)
    (fetch : Except LookupFailure α) :
    Except LookupFailure α × Cache α × Bool :=
  let fetched : Except LookupFailure α × Cache α × Bool :=
    match fetch with
    | Except.ok d => (Except.ok d, cacheSet c key ⟨d, now + ttl⟩, true)
    | Except.error e => (Except.error e, c, true)
  match cacheGet c key with
  | some ci => if now < ci.expiry then (Except.ok ci.value, c, false) else fetched
  | none => fetched

/-- One entry of TMDB's `results` array, with the fields read by
`text_handler` (`.get` returning `None` for a missing key is `Option`). -/
structure TmdbMovie where
  title : Option String
  release_date : Option String
  vote_average : Option String
  poster_path : Option String
deriving DecidableEq, Repr

/-- Parsed TMDB search response; `results := none` models a JSON object with
no (or null) `results` key. -/
structure TmdbResponse where
  results : Option (List TmdbMovie)
deriving DecidableEq, Repr

/-- Parsed OMDB response with the fields read by `text_handler`
(`Response`, `Title`, `Year`, `imdbRating`, `Poster`). -/
structure OmdbResponse where
  response : Option String
  omTitle : Option String
  omYear : Option String
  imdbRating : Option String
  poster : Option String
deriving DecidableEq, Repr

/-- `tmdb_search(title)` (lines 43-58): `None` when `TMDB_API_KEY` is empty,
else cache-or-fetch under key `"tmdb:" + title.lower()`.  `Except.ok none`
models the Python `None` return; `Except.error` a raised fetch exception. -/
def tmdb_search (apiKey : String) (c : Cache TmdbResponse) (now ttl : Int)
    (title : String) (net : Except LookupFailure TmdbResponse) :
    Except LookupFailure (Option TmdbResponse) × Cache TmdbResponse × Bool :=
  if apiKey = "" then (Except.ok none, c, false)
  else
    match get_or_fetch c ("tmdb:" ++ title.toLower) now ttl net with
    | (Except.ok d, c2, f) => (Except.ok (some d), c2, f)
    | (Except.error e, c2, f) => (Except.error e, c2, f)

/-- `omdb_lookup(title)` (lines 60-75): same shape under `"omdb:"` keys. -/
def omdb_lookup (apiKey : String) (c : Cache OmdbResponse) (now ttl : Int)
    (title : String) (net : Except LookupFailure OmdbResponse) :
    Except LookupFailure (Option OmdbResponse) × Cache OmdbResponse × Bool :=
  if apiKey = "" then (Except.ok none, c, false)
  else
    match get_or_fetch c ("omdb:" ++ title.toLower) now ttl net with
    | (Except.ok d, c2, f) => (Except.ok (some d), c2, f)
    | (Except.error e, c2, f) => (Except.error e, c2, f)

/-- `RL_WINDOW = 30` (line 39). -/
def RL_WINDOW : Int := 30

/-- `RL_LIMIT = 15` (line 40). -/
def RL_LIMIT : Nat := 15

/-- `user_events: Dict[int, deque]` (a `defaultdict`), deques as lists with
the oldest timestamp first. -/
abbrev Events := List (Int × List Int)

/-- `user_events[uid]` with the `defaultdict(deque)` default of an empty deque. -/
def eventsGet (ev : Events) (uid : Int) : List Int :=
  match ev with
  | [] => []
  | (k, dq) :: rest => if k = uid then dq else eventsGet rest uid

/-- Store the (mutated-in-place in Python) deque back for `uid`. -/
def eventsSet (ev : Events) (uid : Int) (dq : List Int) : Events :=
  match ev with
  | [] => [(uid, dq)]
  | (k, dq') :: rest =>
    if k = uid then (uid, dq) :: rest else (k, dq') :: eventsSet rest uid dq

/-- `while dq and now - dq[0] > RL_WINDOW: dq.popleft()` (line 80). -/
def trim (now : Int) : List Int → List Int
  | [] => []
  | t :: rest => if now - t > RL_WINDOW then trim now rest else t :: rest

/-- The body of `rate_limited` on one identity's deque (lines 78-85):
trim the front, reject (`true`) without recording when `len(dq) >= RL_LIMIT`,
otherwise append `now` and allow (`false`). -/
def rate_limited_dq (now : Int) (dq : List Int) : Bool × List Int :=
  let dq := trim now dq
  if RL_LIMIT ≤ dq.length then (true, dq)
  else (false, dq ++ [now])

/-- `rate_limited(uid)` (lines 77-85) over the whole `user_events` map. -/
def rate_limited (ev : Events) (uid : Int) (now : Int) : Bool × Events :=
  let r := rate_limited_dq now (eventsGet ev uid)
  (r.1, eventsSet ev uid r.2)

/-- An outbound reply: `context.bot.send_photo` or `context.bot.send_message`. -/
inductive Reply where
  | photo (chatId : Int) (url : String) (caption : String)
  | message (chatId : Int) (text : String)
deriving DecidableEq, Repr

/-- One document of `db.searches.insert_one({"user_id", "q", "at"})` (line 104). -/
structure AuditRec where
  user_id : Int
  q : String
  at_ts : Int
deriving DecidableEq, Repr

/-- The inbound update fields read by `text_handler`: `effective_user`
(`none` when absent), `effective_chat.id`, and `message.text`. -/
structure Update where
  effective_user : Option Int
  chat_id : Int
  text : Option String
deriving DecidableEq, Repr

/-- Python `x or default` for an optional string: `None` and `""` are falsy. -/
def pyOr (o : Option String) (dflt : String) : String :=
  match o with
  | some s => if s = "" then dflt else s
  | none => dflt

/-- `uid = update.effective_user.id if update.effective_user else 0` (line 97). -/
def uidOf (u : Update) : Int :=
  match u.effective_user with
  | some i => i
  | none => 0

/-- `q = (update.message.text or "").strip()` (line 100). -/
def qOf (u : Update) : String := (pyOr u.text "").trim

/-- The TMDB caption f-string (lines 110-114). -/
def tmdbCaption (q : String) (top : TmdbMovie) : String :=
  let title := pyOr top.title q
  let year := (pyOr top.release_date "").take 4
  let rating := top.vote_average.getD "N/A"
  "🎬 *" ++ title ++ "* (" ++ year ++ ")\n⭐ " ++ rating ++ " / 10 (TMDB)"

/-- TMDB rendering (lines 115-119): photo with the prefixed poster URL when
`poster_path` is truthy (present and nonempty), else the caption as a plain
message. -/
def tmdbReply (chat : Int) (q : String) (top : TmdbMovie) : Reply :=
  let p := top.poster_path.getD ""
  if p ≠ "" then
    Reply.photo chat ("https://image.tmdb.org/t/p/w500" ++ p) (tmdbCaption q top)
  else Reply.message chat (tmdbCaption q top)

/-- The OMDB caption f-string (lines 123-124). -/
def omdbCaption (om : OmdbResponse) : String :=
  "🎬 *" ++ om.omTitle.getD "?" ++ "* (" ++ om.omYear.getD "" ++ ")\n⭐ " ++
    om.imdbRating.getD "N/A" ++ " / 10 (IMDB)"

/-- OMDB rendering (lines 125-127): `if poster and poster != "N/A"` send the
poster string itself as the photo URL, else the caption as plain text
(a missing poster has `getD "" = ""`, matching Python falsiness of `None`). -/
def omdbReply (chat : Int) (om : OmdbResponse) : Reply :=
  let p := om.poster.getD ""
  if p ≠ "" ∧ p ≠ "N/A" then Reply.photo chat p (omdbCaption om)
  else Reply.message chat (omdbCaption om)

/-- `"❌ Not found. Try another title."` (line 128). -/
def notFoundText : String := "❌ Not found. Try another title."

/-- `"⏳ Too many requests. Slow down."` (line 99). -/
def slowDownText : String := "⏳ Too many requests. Slow down."

/-- Configuration and per-request oracle inputs for one `text_handler` call:
the env-derived keys, whether `db` is configured and the insert succeeds, the
cache TTL, and the outcome each upstream service would produce if fetched. -/
structure Env where
  tmdb_api_key : String
  omdb_api_key : String
  db_configured : Bool
  audit_ok : Bool
  ttl : Int
  tmdbNet : Except LookupFailure TmdbResponse
  omdbNet : Except LookupFailure OmdbResponse

/-- The process-wide mutable state touched by a request: the two halves of
`cache` and `user_events`. -/
structure BotState where
  tmdbCache : Cache TmdbResponse
  omdbCache : Cache OmdbResponse
  user_events : Events
deriving DecidableEq, Repr

/-- Observable outcome of one `text_handler` call: final state, replies sent,
successful audit writes, whether each upstream fetch ran, whether
`omdb_lookup` was invoked at all, and an exception escaping the handler. -/
structure HandlerOut where
  state : BotState
  replies : List Reply
  audits : List AuditRec
  tmdbFetched : Bool
  omdbCalled : Bool
  omdbFetched : Bool
  raised : Option LookupFailure
deriving DecidableEq, Repr

/-- The OMDB fallback stage of `text_handler` (lines 120-128), reached only
when the TMDB stage produced no usable match. -/
def omdbStage (env : Env) (st : BotState) (now : Int) (chat : Int) (q : String)
    (audits : List AuditRec) (tmdbFetched : Bool) : HandlerOut :=
  let orr := omdb_lookup env.omdb_api_key st.omdbCache now env.ttl q env.omdbNet
  let st2 : BotState := { st with omdbCache := orr.2.1 }
  match orr.1 with
  | Except.error e =>
    { state := st2, replies := [], audits := audits, tmdbFetched := tmdbFetched,
      omdbCalled := true, omdbFetched := orr.2.2, raised := some e }
  | Except.ok om =>
    let reply :=
      match om with
      | some o =>
        if o.response = some "True" then omdbReply chat o
        else Reply.message chat notFoundText
      | none => Reply.message chat notFoundText
    { state := st2, replies := [reply], audits := audits, tmdbFetched := tmdbFetched,
      omdbCalled := true, omdbFetched := orr.2.2, raised := none }

/-- `text_handler(update, context)` (lines 96-128): rate-check, best-effort
audit write, TMDB stage (first result wins), OMDB fallback, not-found. -/
def text_handler (env : Env) (st : BotState) (now : Int) (u : Update) : HandlerOut :=
  let uid := uidOf u
  let rl := rate_limited st.user_events uid now
  let st1 : BotState := { st with user_events := rl.2 }
  if rl.1 then
    { state := st1, replies := [Reply.message u.chat_id slowDownText], audits := [],
      tmdbFetched := false, omdbCalled := false, omdbFetched := false, raised := none }
  else
    let q := qOf u
    let audits : List AuditRec :=
      if env.db_configured && env.audit_ok then [⟨uid, q, now⟩] else []
    let tr := tmdb_search env.tmdb_api_key st1.tmdbCache now env.ttl q env.tmdbNet
    let st2 : BotState := { st1 with tmdbCache := tr.2.1 }
    match tr.1 with
    | Except.error e =>
      { state := st2, replies := [], audits := audits, tmdbFetched := tr.2.2,
        omdbCalled := false, omdbFetched := false, raised := some e }
    | Except.ok info =>
      match info with
      | some i =>
        match i.results with
        | some (top :: _) =>
          { state := st2, replies := [tmdbReply u.chat_id q top], audits := audits,
            tmdbFetched := tr.2.2, omdbCalled := false, omdbFetched := false,
            raised := none }
        | some [] => omdbStage env st2 now u.chat_id q audits tr.2.2
        | none => omdbStage env st2 now u.chat_id q audits tr.2.2
      | none => omdbStage env st2 now u.chat_id q audits tr.2.2

/-- Outcome of the `POST /webhook/{token}` endpoint (lines 179-188):
an `HTTPException` 403, or the update processed through the handler. -/
inductive WebhookResult where
  | rejected (status : Nat) (detail : String)
  | processed (out : HandlerOut)

/-- `webhook(token, request)` (lines 179-188): the path token must equal
`BOT_TOKEN` and `request.query_params.get("secret", "")` must equal
`WEBHOOK_SECRET` before the update is dispatched (text updates reach
`text_handler` via `process_update`). -/
def webhook (botToken whSecret : String) (env : Env) (st : BotState) (now : Int)
    (token : String) (secretParam : Option String) (u : Update) :
    WebhookResult × BotState :=
  if token ≠ botToken then (WebhookResult.rejected 403 "bad token", st)
  else if secretParam.getD "" ≠ whSecret then (WebhookResult.rejected 403 "bad secret", st)
  else
    let out := text_handler env st now u
    (WebhookResult.processed out, out.state)

/-- Run `rate_limited` for one identity over a list of call times, collecting
the returned flags (`true` = limited/rejected). -/
def runCalls (ev : Events) (uid : Int) : List Int → List Bool × Events
  | [] => ([], ev)
  | t :: ts =>
    let r := rate_limited ev uid t
    let rest := runCalls r.2 uid ts
    (r.1 :: rest.1, rest.2)

/-! ### Helper lemmas -/

lemma cacheGet_set_self {α : Type} (c : Cache α) (key : String) (it : CacheItem α) :
    cacheGet (cacheSet c key it) key = some it := by
  induction c with
  | nil => simp [cacheGet, cacheSet]
  | cons p rest ih =>
    obtain ⟨k, ci⟩ := p
    by_cases h : k = key <;> simp [cacheGet, cacheSet, h, ih]

lemma eventsGet_set_self (ev : Events) (uid : Int) (dq : List Int) :
    eventsGet (eventsSet ev uid dq) uid = dq := by
  induction ev with
  | nil => simp [eventsGet, eventsSet]
  | cons p rest ih =>
    obtain ⟨k, d⟩ := p
    by_cases h : k = uid <;> simp [eventsGet, eventsSet, h, ih]

lemma liveAt_false_elim {α : Type} {c : Cache α} {key : String} {now : Int}
    (h : liveAt c key now = false) :
    cacheGet c key = none ∨ ∃ ci, cacheGet c key = some ci ∧ ci.expiry ≤ now := by
  cases hc : cacheGet c key with
  | none => exact Or.inl rfl
  | some ci =>
    refine Or.inr ⟨ci, rfl, ?_⟩
    simp [liveAt, hc] at h
    omega

lemma get_or_fetch_cold {α : Type} (c : Cache α) (key : String) (now ttl : Int)
    (fetch : Except LookupFailure α) (h : liveAt c key now = false) :
    get_or_fetch c key now ttl fetch =
      (match fetch with
       | Except.ok d => (Except.ok d, cacheSet c key ⟨d, now + ttl⟩, true)
       | Except.error e => (Except.error e, c, true)) := by
  rcases liveAt_false_elim h with hc | ⟨ci, hc, hexp⟩
  · simp [get_or_fetch, hc]
  · have : ¬ now < ci.expiry := by omega
    simp [get_or_fetch, hc, this]

lemma trim_subset (now : Int) (dq : List Int) : ∀ t ∈ trim now dq, t ∈ dq := by
  induction dq with
  | nil => simp [trim]
  | cons a rest ih =>
    intro t ht
    by_cases h : now - a > RL_WINDOW
    · simp only [trim, if_pos h] at ht
      exact List.mem_cons_of_mem _ (ih t ht)
    · simpa [trim, h] using ht

lemma trim_length_le (now : Int) (dq : List Int) : (trim now dq).length ≤ dq.length := by
  induction dq with
  | nil => simp [trim]
  | cons a rest ih =>
    by_cases h : now - a > RL_WINDOW
    · simp only [trim, if_pos h]
      exact le_trans ih (by simp)
    · simp [trim, h]

lemma trim_sorted (now : Int) (dq : List Int) (h : dq.Sorted (· ≤ ·)) :
    (trim now dq).Sorted (· ≤ ·) := by
  induction dq with
  | nil => simp [trim]
  | cons a rest ih =>
    rcases List.sorted_cons.mp h with ⟨_, hrest⟩
    by_cases hc : now - a > RL_WINDOW
    · simp only [trim, if_pos hc]
      exact ih hrest
    · simpa [trim, hc] using h

lemma trim_fresh (now : Int) (dq : List Int) (h : dq.Sorted (· ≤ ·)) :
    ∀ t ∈ trim now dq, now - t ≤ RL_WINDOW := by
  induction dq with
  | nil => simp [trim]
  | cons a rest ih =>
    rcases List.sorted_cons.mp h with ⟨ha, hrest⟩
    intro t ht
    by_cases hc : now - a > RL_WINDOW
    · simp only [trim, if_pos hc] at ht
      exact ih hrest t ht
    · simp only [trim, if_neg hc] at ht
      rcases List.mem_cons.mp ht with h1 | h1
      · omega
      · have := ha t h1
        omega

/-- The rate-limiter state well-formedness used by the window invariant:
timestamps in order, none from the future, and count within the limit. -/
def Inv (now : Int) (dq : List Int) : Prop :=
  dq.Sorted (· ≤ ·) ∧ (∀ t ∈ dq, t ≤ now) ∧ dq.length ≤ RL_LIMIT

lemma rate_limited_dq_inv (now now' : Int) (dq : List Int)
    (h : Inv now dq) (hle : now ≤ now') :
    (∀ t ∈ (rate_limited_dq now' dq).2, now' - t ≤ RL_WINDOW) ∧
    Inv now' (rate_limited_dq now' dq).2 := by
  obtain ⟨hs, hb, hl⟩ := h
  have hbound : ∀ t ∈ trim now' dq, t ≤ now' :=
    fun t ht => le_trans (hb t (trim_subset now' dq t ht)) hle
  by_cases hc : RL_LIMIT ≤ (trim now' dq).length
  · simp only [rate_limited_dq, if_pos hc]
    exact ⟨trim_fresh now' dq hs, trim_sorted now' dq hs, hbound,
      le_trans (trim_length_le now' dq) hl⟩
  · simp only [rate_limited_dq, if_neg hc]
    refine ⟨?_, ?_, ?_, ?_⟩
    · intro t ht
      rcases List.mem_append.mp ht with h1 | h1
      · exact trim_fresh now' dq hs t h1
      · simp only [List.mem_singleton] at h1
        subst h1
        simp [RL_WINDOW]
    · refine List.pairwise_append.mpr ⟨trim_sorted now' dq hs, List.sorted_singleton _, ?_⟩
      intro a ha b hb'
      simp only [List.mem_singleton] at hb'
      subst hb'
      exact hbound a ha
    · intro t ht
      rcases List.mem_append.mp ht with h1 | h1
      · exact hbound t h1
      · simp only [List.mem_singleton] at h1
        omega
    · simp only [List.length_append, List.length_singleton]
      omega

/-! ### Concrete scenario inputs -/

/-- Empty process state: fresh caches and no recorded events. -/
def st0 : BotState := { tmdbCache := [], omdbCache := [], user_events := [] }

/-- The first TMDB result of the "Jailer" end-to-end scenario. -/
def jailerTop : TmdbMovie :=
  { title := some "Jailer", release_date := some "2023-08-10",
    vote_average := some "7.8", poster_path := some "/abc.jpg" }

/-- The TMDB response `{results: [jailerTop]}`. -/
def tmdbRespJ : TmdbResponse := { results := some [jailerTop] }

/-- Environment for the "Jailer" scenario: Primary configured and matching. -/
def envJ : Env :=
  { tmdb_api_key := "k", omdb_api_key := "k2", db_configured := false,
    audit_ok := false, ttl := 900, tmdbNet := Except.ok tmdbRespJ,
    omdbNet := Except.ok ⟨none, none, none, none, none⟩ }

/-- Inbound "Jailer" message. -/
def uJ : Update := { effective_user := some 42, chat_id := 1, text := some "Jailer" }

/-- Environment where the Primary upstream fails with an HTTP error while the
Secondary is configured and would match. -/
def envE : Env :=
  { tmdb_api_key := "k", omdb_api_key := "k2", db_configured := false,
    audit_ok := false, ttl := 900, tmdbNet := Except.error LookupFailure.httpError,
    omdbNet := Except.ok ⟨some "True", some "Jailer", some "2023", some "7.8",
      some "http://p/x.jpg"⟩ }

/-- OMDB match whose `Poster` field is the literal string `"not available"`. -/
def omNA : OmdbResponse :=
  { response := some "True", omTitle := some "RRR", omYear := some "2022",
    imdbRating := some "7.9", poster := some "not available" }

/-- Environment with only the Secondary configured, returning `omNA`. -/
def envO : Env :=
  { tmdb_api_key := "", omdb_api_key := "k2", db_configured := false,
    audit_ok := false, ttl := 900, tmdbNet := Except.error LookupFailure.httpError,
    omdbNet := Except.ok omNA }

/-- Inbound "RRR" message. -/
def uO : Update := { effective_user := some 7, chat_id := 2, text := some "RRR" }

/-- Inbound message with no sender identity (`effective_user` absent). -/
def uAnon : Update := { effective_user := none, chat_id := 3, text := some "Kantara" }

/-! ### Claim theorems -/

/-- C3: a live cache entry (expiry strictly in the future) is returned without
invoking the fetch; a cold successful fetch stores `{value, now+ttl}`; a
second call strictly within the TTL does not fetch and returns the cached
value; a call at or after expiry fetches again. -/
theorem cache_live_hit_ttl :
    (∀ (α : Type) (c : Cache α) (key : String) (now ttl : Int)
        (f : Except LookupFailure α) (ci : CacheItem α),
        cacheGet c key = some ci → now < ci.expiry →
        get_or_fetch c key now ttl f = (Except.ok ci.value, c, false)) ∧
    (∀ (α : Type) (c : Cache α) (key : String) (now ttl : Int) (d : α),
        liveAt c key now = false →
        get_or_fetch c key now ttl (Except.ok d) =
          (Except.ok d, cacheSet c key ⟨d, now + ttl⟩, true)) ∧
    (∀ (α : Type) (c : Cache α) (key : String) (now now' ttl : Int) (d : α)
        (f : Except LookupFailure α),
        now' < now + ttl →
        get_or_fetch (cacheSet c key ⟨d, now + ttl⟩) key now' ttl f =
          (Except.ok d, cacheSet c key ⟨d, now + ttl⟩, false)) ∧
    (∀ (α : Type) (c : Cache α) (key : String) (now now' ttl : Int) (d : α)
        (f : Except LookupFailure α),
        now + ttl ≤ now' →
        (get_or_fetch (cacheSet c key ⟨d, now + ttl⟩) key now' ttl f).2.2 = true) := by
  refine ⟨?_, ?_, ?_, ?_⟩
  · intro α c key now ttl f ci hc hl
    simp [get_or_fetch, hc, hl]
  · intro α c key now ttl d h
    simp [get_or_fetch_cold c key now ttl (Except.ok d) h]
  · intro α c key now now' ttl d f h
    simp [get_or_fetch, cacheGet_set_self, h]
  · intro α c key now now' ttl d f h
    have hn : ¬ now' < (⟨d, now + ttl⟩ : CacheItem α).expiry := by
      simp only [CacheItem.expiry]
      omega
    simp only [get_or_fetch, cacheGet_set_self, if_neg hn]
    cases f <;> rfl

/-- Witness for C3 at concrete inputs. -/
theorem cache_live_hit_ttl_witness :
    (cacheGet ([("k", ⟨5, 10⟩)] : Cache Nat) "k" = some ⟨5, 10⟩ ∧ (3 : Int) < 10 ∧
      get_or_fetch ([("k", ⟨5, 10⟩)] : Cache Nat) "k" 3 7
          (Except.error LookupFailure.httpError) =
        (Except.ok 5, [("k", ⟨5, 10⟩)], false)) ∧
    (liveAt ([] : Cache Nat) "k" 0 = false ∧
      get_or_fetch ([] : Cache Nat) "k" 0 10 (Except.ok 5) =
        (Except.ok 5, cacheSet ([] : Cache Nat) "k" ⟨5, 0 + 10⟩, true)) ∧
    ((5 : Int) < 0 + 10 ∧
      get_or_fetch (cacheSet ([] : Cache Nat) "k" ⟨5, 0 + 10⟩) "k" 5 10
          (Except.error LookupFailure.malformed) =
        (Except.ok 5, cacheSet ([] : Cache Nat) "k" ⟨5, 0 + 10⟩, false)) ∧
    ((0 : Int) + 10 ≤ 10 ∧
      (get_or_fetch (cacheSet ([] : Cache Nat) "k" ⟨5, 0 + 10⟩) "k" 10 10
          (Except.ok 6)).2.2 = true) := by
  refine ⟨⟨rfl, by norm_num,
      cache_live_hit_ttl.1 Nat _ "k" 3 7 _ ⟨5, 10⟩ rfl (by norm_num)⟩,
    ⟨rfl, cache_live_hit_ttl.2.1 Nat _ "k" 0 10 5 rfl⟩,
    ⟨by norm_num, cache_live_hit_ttl.2.2.1 Nat _ "k" 0 5 10 5 _ (by norm_num)⟩,
    ⟨by norm_num, cache_live_hit_ttl.2.2.2 Nat _ "k" 0 10 10 5 _ (by norm_num)⟩⟩

/-- C6: a failing fetch propagates the failure, leaves the cache untouched
(no negative caching), and any later call for the same key fetches again. -/
theorem fetch_failure_not_cached :
    (∀ (α : Type) (c : Cache α) (key : String) (now ttl : Int) (e : LookupFailure),
        liveAt c key now = false →
        get_or_fetch c key now ttl (Except.error e) = (Except.error e, c, true)) ∧
    (∀ (α : Type) (c : Cache α) (key : String) (now now' ttl : Int)
        (f : Except LookupFailure α),
        liveAt c key now = false → now ≤ now' →
        (get_or_fetch c key now' ttl f).2.2 = true) := by
  refine ⟨?_, ?_⟩
  · intro α c key now ttl e h
    simp [get_or_fetch_cold c key now ttl (Except.error e) h]
  · intro α c key now now' ttl f h hle
    have h' : liveAt c key now' = false := by
      rcases liveAt_false_elim h with hc | ⟨ci, hc, hexp⟩
      · simp [liveAt, hc]
      · simp only [liveAt, hc, decide_eq_false_iff_not]
        omega
    rw [get_or_fetch_cold c key now' ttl f h']
    cases f <;> rfl

/-- Witness for C6 at concrete inputs. -/
theorem fetch_failure_not_cached_witness :
    (liveAt ([] : Cache Nat) "k" 0 = false ∧
      get_or_fetch ([] : Cache Nat) "k" 0 10 (Except.error LookupFailure.httpError) =
        (Except.error LookupFailure.httpError, ([] : Cache Nat), true)) ∧
    (liveAt ([] : Cache Nat) "k" 0 = false ∧ (0 : Int) ≤ 1 ∧
      (get_or_fetch ([] : Cache Nat) "k" 1 10 (Except.ok 5)).2.2 = true) := by
  exact ⟨⟨rfl, fetch_failure_not_cached.1 Nat [] "k" 0 10 LookupFailure.httpError rfl⟩,
    ⟨rfl, by norm_num,
      fetch_failure_not_cached.2 Nat [] "k" 0 1 10 (Except.ok 5) rfl (by norm_num)⟩⟩

/-- C4: each `rate_limited` call drops from the front every timestamp older
than `now - RL_WINDOW`, rejects without recording when the remaining count
reaches `RL_LIMIT`, and otherwise appends `now`; with limit 15 and window 30,
fifteen events at t=0 followed by one at t=1 reject the 16th, while events at
t=0 and t=31 are both accepted. -/
theorem rate_limiter_behaviour :
    (∀ (now : Int) (dq : List Int),
        trim now dq = dq.dropWhile (fun t => decide (now - t > RL_WINDOW))) ∧
    (∀ (ev : Events) (uid now : Int),
        rate_limited ev uid now =
          (if RL_LIMIT ≤ (trim now (eventsGet ev uid)).length then
            (true, eventsSet ev uid (trim now (eventsGet ev uid)))
          else (false, eventsSet ev uid (trim now (eventsGet ev uid) ++ [now])))) ∧
    (runCalls [] 0 (List.replicate 15 (0 : Int) ++ [1])).1 =
      List.replicate 15 false ++ [true] ∧
    (runCalls [] 0 [(0 : Int), 31]).1 = [false, false] := by
  refine ⟨?_, ?_, by decide, by decide⟩
  · intro now dq
    induction dq with
    | nil => simp [trim]
    | cons a rest ih =>
      by_cases h : now - a > RL_WINDOW <;> simp [trim, h, ih]
  · intro ev uid now
    by_cases h : RL_LIMIT ≤ (trim now (eventsGet ev uid)).length <;>
      simp [rate_limited, rate_limited_dq, h]

/-- C9: on a call at time `now'` from a well-formed window state, every
surviving timestamp is within the window and the sequence length stays within
the limit; well-formedness is preserved. -/
theorem rate_window_invariant :
    ∀ (ev : Events) (uid now now' : Int),
      Inv now (eventsGet ev uid) → now ≤ now' →
      (∀ t ∈ eventsGet (rate_limited ev uid now').2 uid, now' - t ≤ RL_WINDOW) ∧
      (eventsGet (rate_limited ev uid now').2 uid).length ≤ RL_LIMIT ∧
      Inv now' (eventsGet (rate_limited ev uid now').2 uid) := by
  intro ev uid now now' h hle
  have hget : eventsGet (rate_limited ev uid now').2 uid =
      (rate_limited_dq now' (eventsGet ev uid)).2 := by
    simp [rate_limited, eventsGet_set_self]
  rw [hget]
  obtain ⟨hw, hinv⟩ := rate_limited_dq_inv now now' (eventsGet ev uid) h hle
  exact ⟨hw, hinv.2.2, hinv⟩

/-- Witness for C9 at concrete inputs. -/
theorem rate_window_invariant_witness :
    Inv 0 (eventsGet [] 0) ∧ (0 : Int) ≤ 1 ∧
    ((∀ t ∈ eventsGet (rate_limited [] 0 1).2 0, 1 - t ≤ RL_WINDOW) ∧
      (eventsGet (rate_limited [] 0 1).2 0).length ≤ RL_LIMIT ∧
      Inv 1 (eventsGet (rate_limited [] 0 1).2 0)) := by
  have hinv : Inv 0 (eventsGet [] 0) := by
    refine ⟨by simp [eventsGet], by simp [eventsGet], by simp [eventsGet]⟩
  exact ⟨hinv, by norm_num, rate_window_invariant [] 0 0 1 hinv (by norm_num)⟩

/-- C1 counterexample: with the Primary configured and its upstream failing
with an HTTP error, the exception escapes `text_handler` uncaught, the
Secondary — configured and matching — is never invoked, and no reply (no
`found=false` rendering, no unavailable notice) is sent. -/
theorem lookup_failure_counterexample :
    (text_handler envE st0 0 uJ).raised = some LookupFailure.httpError ∧
    (text_handler envE st0 0 uJ).omdbCalled = false ∧
    (text_handler envE st0 0 uJ).replies = [] :=
  ⟨rfl, rfl, rfl⟩

/-- C1 amended: an upstream HTTP error or malformed response from the service
being queried is fatal to the resolution — it propagates out of the handler
uncaught, the chain does not proceed to the next service, and no reply (in
particular no "temporarily unavailable" signal) is produced. -/
theorem lookup_failure_propagates :
    (∀ (env : Env) (st : BotState) (now : Int) (u : Update) (e : LookupFailure),
        (rate_limited st.user_events (uidOf u) now).1 = false →
        (tmdb_search env.tmdb_api_key st.tmdbCache now env.ttl (qOf u) env.tmdbNet).1 =
          Except.error e →
        (text_handler env st now u).raised = some e ∧
        (text_handler env st now u).omdbCalled = false ∧
        (text_handler env st now u).replies = []) ∧
    (∀ (env : Env) (st : BotState) (now : Int) (u : Update) (e : LookupFailure)
        (info : Option TmdbResponse),
        (rate_limited st.user_events (uidOf u) now).1 = false →
        (tmdb_search env.tmdb_api_key st.tmdbCache now env.ttl (qOf u) env.tmdbNet).1 =
          Except.ok info →
        (info = none ∨ ∃ i, info = some i ∧ (i.results = none ∨ i.results = some [])) →
        (omdb_lookup env.omdb_api_key st.omdbCache now env.ttl (qOf u) env.omdbNet).1 =
          Except.error e →
        (text_handler env st now u).raised = some e ∧
        (text_handler env st now u).replies = []) := by
  constructor
  · intro env st now u e hrl htm
    simp [text_handler, hrl, htm]
  · intro env st now u e info hrl htm hmiss hom
    rcases hmiss with h | ⟨i, hi, hres⟩
    · subst h
      simp [text_handler, hrl, htm, omdbStage, hom]
    · subst hi
      rcases hres with h | h <;>
        simp [text_handler, hrl, htm, h, omdbStage, hom]

/-- Witness for the amended C1 at the concrete failing scenario. -/
theorem lookup_failure_propagates_witness :
    (rate_limited st0.user_events (uidOf uJ) 0).1 = false ∧
    (tmdb_search envE.tmdb_api_key st0.tmdbCache 0 envE.ttl (qOf uJ) envE.tmdbNet).1 =
      Except.error LookupFailure.httpError ∧
    ((text_handler envE st0 0 uJ).raised = some LookupFailure.httpError ∧
      (text_handler envE st0 0 uJ).omdbCalled = false ∧
      (text_handler envE st0 0 uJ).replies = []) :=
  ⟨rfl, rfl,
    lookup_failure_propagates.1 envE st0 0 uJ LookupFailure.httpError rfl rfl⟩

/-- C2: whenever the Primary lookup yields a non-empty `results` list, the
reply is rendered from the first result with the TMDB rating source and
`omdb_lookup` is never invoked, whatever the Secondary configuration. -/
theorem primary_match_shortcircuits_secondary :
    ∀ (env : Env) (st : BotState) (now : Int) (u : Update) (i : TmdbResponse)
      (top : TmdbMovie) (rest : List TmdbMovie),
      (rate_limited st.user_events (uidOf u) now).1 = false →
      (tmdb_search env.tmdb_api_key st.tmdbCache now env.ttl (qOf u) env.tmdbNet).1 =
        Except.ok (some i) →
      i.results = some (top :: rest) →
      (text_handler env st now u).omdbCalled = false ∧
      (text_handler env st now u).replies = [tmdbReply u.chat_id (qOf u) top] ∧
      (text_handler env st now u).raised = none := by
  intro env st now u i top rest hrl htm hres
  simp [text_handler, hrl, htm, hres]

/-- Witness for C2 at the "Jailer" scenario. -/
theorem primary_match_shortcircuits_secondary_witness :
    (rate_limited st0.user_events (uidOf uJ) 0).1 = false ∧
    (tmdb_search envJ.tmdb_api_key st0.tmdbCache 0 envJ.ttl (qOf uJ) envJ.tmdbNet).1 =
      Except.ok (some tmdbRespJ) ∧
    tmdbRespJ.results = some (jailerTop :: []) ∧
    ((text_handler envJ st0 0 uJ).omdbCalled = false ∧
      (text_handler envJ st0 0 uJ).replies = [tmdbReply uJ.chat_id (qOf uJ) jailerTop] ∧
      (text_handler envJ st0 0 uJ).raised = none) :=
  ⟨rfl, rfl, rfl,
    primary_match_shortcircuits_secondary envJ st0 0 uJ tmdbRespJ jailerTop []
      rfl rfl rfl⟩

/-- C5: a wrong path token or wrong query-string secret yields an HTTP 403
rejection with the state returned untouched — no rate-limiter consumption, no
audit write, no lookup call. -/
theorem webhook_auth_rejection :
    ∀ (botToken whSecret : String) (env : Env) (st : BotState) (now : Int)
      (token : String) (secretParam : Option String) (u : Update),
      token ≠ botToken ∨ secretParam.getD "" ≠ whSecret →
      ∃ d, webhook botToken whSecret env st now token secretParam u =
        (WebhookResult.rejected 403 d, st) := by
  intro botToken whSecret env st now token secretParam u h
  by_cases ht : token = botToken
  · subst ht
    rcases h with h | h
    · exact absurd rfl h
    · exact ⟨"bad secret", by simp [webhook, h]⟩
  · exact ⟨"bad token", by simp [webhook, ht]⟩

/-- Witness for C5 at a concrete wrong token. -/
theorem webhook_auth_rejection_witness :
    (("wrong" : String) ≠ "tok" ∨ (none : Option String).getD "" ≠ "sec") ∧
    (∃ d, webhook "tok" "sec" envJ st0 0 "wrong" none uJ =
      (WebhookResult.rejected 403 d, st0)) := by
  have h : ("wrong" : String) ≠ "tok" ∨ (none : Option String).getD "" ≠ "sec" :=
    Or.inl (by decide)
  exact ⟨h, webhook_auth_rejection "tok" "sec" envJ st0 0 "wrong" none uJ h⟩

/-- C7 counterexample: in the "Jailer" scenario the image URL is as claimed
but the caption carries the emoji and Markdown decorations of the source
f-string, so it is not exactly `"Jailer (2023)\n7.8 / 10 (TMDB)"`. -/
theorem jailer_caption_counterexample :
    (text_handler envJ st0 0 uJ).replies =
      [Reply.photo 1 "https://image.tmdb.org/t/p/w500/abc.jpg"
        "🎬 *Jailer* (2023)\n⭐ 7.8 / 10 (TMDB)"] ∧
    "🎬 *Jailer* (2023)\n⭐ 7.8 / 10 (TMDB)" ≠ "Jailer (2023)\n7.8 / 10 (TMDB)" :=
  ⟨rfl, by decide⟩

/-- C7 amended: the "Jailer" scenario sends an image reply with the URL
`https://image.tmdb.org/t/p/w500/abc.jpg` and the caption
`"🎬 *Jailer* (2023)\n⭐ 7.8 / 10 (TMDB)"` — the claimed
`"<title> (<year>)\n<rating> / 10 (TMDB)"` shape decorated with the emoji
and Markdown asterisk markup of the source. -/
theorem jailer_scenario_decorated :
    (text_handler envJ st0 0 uJ).replies =
      [Reply.photo 1 "https://image.tmdb.org/t/p/w500/abc.jpg"
        "🎬 *Jailer* (2023)\n⭐ 7.8 / 10 (TMDB)"] ∧
    (text_handler envJ st0 0 uJ).raised = none ∧
    (text_handler envJ st0 0 uJ).omdbCalled = false :=
  ⟨rfl, rfl, rfl⟩

/-- C8 counterexample: an OMDB match whose `Poster` field is the literal
string `"not available"` is NOT treated as absent — the dispatcher sends a
photo reply using `"not available"` as the image URL. -/
theorem omdb_poster_sentinel_counterexample :
    (text_handler envO st0 0 uO).replies =
      [Reply.photo 2 "not available" (omdbCaption omNA)] := rfl

/-- C8 amended: the absent-poster sentinel of the Secondary is the literal
`"N/A"` (a missing or empty poster is also treated as absent), any other
nonempty poster string — `"not available"` included — is used as the image
URL, and a Primary poster path is always prefixed with the fixed image base
URL. -/
theorem poster_handling :
    (∀ (env : Env) (st : BotState) (now : Int) (u : Update) (om : OmdbResponse),
        (rate_limited st.user_events (uidOf u) now).1 = false →
        (tmdb_search env.tmdb_api_key st.tmdbCache now env.ttl (qOf u) env.tmdbNet).1 =
          Except.ok none →
        (omdb_lookup env.omdb_api_key st.omdbCache now env.ttl (qOf u) env.omdbNet).1 =
          Except.ok (some om) →
        om.response = some "True" →
        (text_handler env st now u).replies = [omdbReply u.chat_id om]) ∧
    (∀ (chat : Int) (om : OmdbResponse),
        om.poster = some "N/A" ∨ om.poster = none ∨ om.poster = some "" →
        omdbReply chat om = Reply.message chat (omdbCaption om)) ∧
    (∀ (chat : Int) (om : OmdbResponse) (p : String),
        om.poster = some p → p ≠ "" → p ≠ "N/A" →
        omdbReply chat om = Reply.photo chat p (omdbCaption om)) ∧
    (∀ (chat : Int) (q : String) (top : TmdbMovie) (p : String),
        top.poster_path = some p → p ≠ "" →
        tmdbReply chat q top =
          Reply.photo chat ("https://image.tmdb.org/t/p/w500" ++ p)
            (tmdbCaption q top)) := by
  refine ⟨?_, ?_, ?_, ?_⟩
  · intro env st now u om hrl htm hom hresp
    simp [text_handler, hrl, htm, omdbStage, hom, hresp]
  · intro chat om h
    rcases h with h | h | h <;> simp [omdbReply, h]
  · intro chat om p hp h1 h2
    simp [omdbReply, hp, h1, h2]
  · intro chat q top p hp h1
    simp [tmdbReply, hp, h1]

/-- Witness for the amended C8 at concrete posters. -/
theorem poster_handling_witness :
    ((rate_limited st0.user_events (uidOf uO) 0).1 = false ∧
      (tmdb_search envO.tmdb_api_key st0.tmdbCache 0 envO.ttl (qOf uO) envO.tmdbNet).1 =
        Except.ok none ∧
      (omdb_lookup envO.omdb_api_key st0.omdbCache 0 envO.ttl (qOf uO) envO.omdbNet).1 =
        Except.ok (some omNA) ∧
      omNA.response = some "True" ∧
      (text_handler envO st0 0 uO).replies = [omdbReply uO.chat_id omNA]) ∧
    (({ omNA with poster := some "N/A" } : OmdbResponse).poster = some "N/A" ∧
      omdbReply 2 { omNA with poster := some "N/A" } =
        Reply.message 2 (omdbCaption { omNA with poster := some "N/A" })) ∧
    (omNA.poster = some "not available" ∧ ("not available" : String) ≠ "" ∧
      ("not available" : String) ≠ "N/A" ∧
      omdbReply 2 omNA = Reply.photo 2 "not available" (omdbCaption omNA)) ∧
    (jailerTop.poster_path = some "/abc.jpg" ∧ ("/abc.jpg" : String) ≠ "" ∧
      tmdbReply 1 "Jailer" jailerTop =
        Reply.photo 1 ("https://image.tmdb.org/t/p/w500" ++ "/abc.jpg")
          (tmdbCaption "Jailer" jailerTop)) :=
  ⟨⟨rfl, rfl, rfl, rfl,
      poster_handling.1 envO st0 0 uO omNA rfl rfl rfl rfl⟩,
    ⟨rfl, poster_handling.2.1 2 _ (Or.inl rfl)⟩,
    ⟨rfl, by decide, by decide,
      poster_handling.2.2.1 2 omNA "not available" rfl (by decide) (by decide)⟩,
    ⟨rfl, by decide,
      poster_handling.2.2.2 1 "Jailer" jailerTop "/abc.jpg" rfl (by decide)⟩⟩

/-- C10: a text message whose update carries no sender identity gets sender
identity `0`, and is processed exactly as a message from user `0` — anonymous
messages share one common rate-limit window instead of being exempt. -/
theorem anonymous_sender_uid_zero :
    ∀ (env : Env) (st : BotState) (now : Int) (u : Update),
      u.effective_user = none →
      uidOf u = 0 ∧
      text_handler env st now u =
        text_handler env st now { u with effective_user := some 0 } := by
  intro env st now u h
  obtain ⟨eu, cid, txt⟩ := u
  have h' : eu = none := h
  subst h'
  exact ⟨rfl, rfl⟩

/-- Witness for C10 at a concrete anonymous update. -/
theorem anonymous_sender_uid_zero_witness :
    uAnon.effective_user = none ∧
    (uidOf uAnon = 0 ∧
      text_handler envJ st0 0 uAnon =
        text_handler envJ st0 0 { uAnon with effective_user := some 0 }) :=
  ⟨rfl, anonymous_sender_uid_zero envJ st0 0 uAnon rfl⟩

end AllMovies
